import Mathlib

/-!
Verification of the kivoll_worker scrape-and-ingest pipeline.

Shallow embedding of the pure control flow and data transformations of
`kivoll_worker` (target scheduling, HTTP retry configuration, occupancy
HTML parsing, weather parameter validation, weather row upsert, and the
SQL migration runner), together with theorems settling the specification
claims against it.  Python strings are modelled by `String`, Python floats
by `ℚ` (the code only moves values around, it never does float
arithmetic), SQL NULL by `Option`, and an uncaught Python exception by
`Option`/`Except` failure.
-/

namespace KivollWorker

/-! ## Target scheduler (`scraper.py`) -/

/-- A wall-clock time as produced by `datetime.time(hour, minute)`;
windows in `SCRAPE_TARGETS` only carry hours and minutes, and comparison
of `datetime.time` values is lexicographic on (hour, minute). -/
structure TimeHM where
  hour : Nat
  minute : Nat
deriving DecidableEq, Repr

/-- Minutes since midnight; `datetime.time` comparison on (hour, minute)
agrees with comparison of this value for in-range times. -/
def TimeHM.toMinutes (t : TimeHM) : Nat := t.hour * 60 + t.minute

/-- One value of the `SCRAPE_TARGETS` dict: the optional `open` window.
The runner callable is modelled separately (see `weatherRunnerOutcome`). -/
structure TargetInfo where
  openWindow : Option (TimeHM × TimeHM)
deriving DecidableEq, Repr

/-- `SCRAPE_TARGETS` from `scraper.py`, in dict insertion order:
`weather` has no `open` window, `kletterzentrum` opens 09:00 - 22:00. -/
def SCRAPE_TARGETS : List (String × TargetInfo) :=
  [("weather", ⟨none⟩),
   ("kletterzentrum", ⟨some (⟨9, 0⟩, ⟨22, 0⟩)⟩)]

/-- The defined target ids, in insertion order. -/
def targetIds : List String := SCRAPE_TARGETS.map (·.1)

/-- `_is_open(at, target_info)`: true when no `open` window is configured,
otherwise `start <= at < end`. -/
def isOpen (t : TimeHM) (info : TargetInfo) : Bool :=
  match info.openWindow with
  | some (s, e) => s.toMinutes ≤ t.toMinutes ∧ t.toMinutes < e.toMinutes
  | none => true

/-- `_open_targets(at)`: the target names whose open windows include `at`. -/
def openTargets (t : TimeHM) : List String :=
  (SCRAPE_TARGETS.filter (fun p => isOpen t p.2)).map (·.1)

/-- Python whitespace as stripped by `str.strip()` (ASCII range; the
inputs the scraper handles carry no exotic unicode whitespace). -/
def isPySpace (c : Char) : Bool :=
  c = ' ' ∨ c = '\t' ∨ c = '\n' ∨ c = '\r' ∨ c = '\x0b' ∨ c = '\x0c'

/-- Python `str.strip()`: drop leading and trailing whitespace. -/
def pyStripChars (l : List Char) : List Char :=
  ((l.dropWhile isPySpace).reverse.dropWhile isPySpace).reverse

/-- Python `str.strip()` on strings. -/
def pyStrip (s : String) : String := String.mk (pyStripChars s.toList)

/-- Python `str.lower()` (ASCII range). -/
def asciiLowerChar (c : Char) : Char :=
  if 'A' ≤ c ∧ c ≤ 'Z' then Char.ofNat (c.toNat + 32) else c

/-- Python `str.lower()` on strings. -/
def pyLower (s : String) : String := String.mk (s.toList.map asciiLowerChar)

/-- Python `str.split(sep)` for a one-character separator: splits at every
occurrence, keeping empty pieces. -/
def splitOnCharList (sep : Char) : List Char → List (List Char)
  | [] => [[]]
  | c :: rest =>
    match splitOnCharList sep rest with
    | [] => [[]]
    | piece :: pieces =>
      if c = sep then [] :: piece :: pieces else (c :: piece) :: pieces

/-- Python `str.split(sep)` on strings. -/
def pySplit (sep : Char) (s : String) : List String :=
  (splitOnCharList sep s.toList).map String.mk

/-- The token list of `_resolve_targets`:
`[token.strip().lower() for token in raw_targets.split(",") if token.strip()]`. -/
def tokenize (raw : String) : List String :=
  ((pySplit ',' raw).filter (fun tok => ¬ (pyStrip tok).isEmpty)).map
    (fun tok => pyLower (pyStrip tok))

/-- `if name not in selections: selections.append(name)`. -/
def appendNew (sel : List String) (x : String) : List String :=
  if x ∈ sel then sel else sel ++ [x]

/-- One iteration of the token loop in `_resolve_targets`.  The state is
(selections, warned tokens); the else branch issues the
`Unknown target` warning (which the code also reaches for an
already-selected known token). -/
def resolveStep (acc : List String × List String) (token : String) :
    List String × List String :=
  if token = "all" then
    (SCRAPE_TARGETS.foldl (fun s p => appendNew s p.1) acc.1, acc.2)
  else if token ∈ targetIds ∧ token ∉ acc.1 then
    (acc.1 ++ [token], acc.2)
  else
    (acc.1, acc.2 ++ [token])

/-- `_resolve_targets(raw_targets, at)`: auto-selection by open window
when `raw` is `None`, otherwise the token loop.  Returns the ordered
selections together with the tokens that drew an `Unknown target`
warning. -/
def resolveTargets (raw : Option String) (t : TimeHM) :
    List String × List String :=
  match raw with
  | none => (openTargets t, [])
  | some r => (tokenize r).foldl resolveStep ([], [])

/-! Characterisation of the token loop: the selections are the first-seen
deduplication of the expansion of each token. -/

/-- Expansion of a single token: `all` contributes every defined id,
a known token contributes itself, an unknown token contributes nothing. -/
def expandToken (token : String) : List String :=
  if token = "all" then targetIds
  else if token ∈ targetIds then [token] else []

/-! ## HTTP retry session (`scrape/session.py`) -/

/-- `TOTAL_RETRIES` from `session.py`. -/
def TOTAL_RETRIES : Nat := 3

/-- `STATUS_FORCELIST` from `session.py`. -/
def STATUS_FORCELIST : List Nat := [429, 500, 502, 503, 504]

/-- The `niquests.RetryConfiguration` value built by
`set_reties_property`. -/
structure RetryConfiguration where
  total : Nat
  backoffFactor : Nat
  statusForcelist : List Nat
  allowedMethods : List String
  respectRetryAfterHeader : Bool
deriving DecidableEq, Repr

/-- The configuration installed on every scrape session by
`set_reties_property` in `session.py`. -/
def scrapeRetryConfiguration : RetryConfiguration :=
  { total := TOTAL_RETRIES
    backoffFactor := 0
    statusForcelist := STATUS_FORCELIST
    allowedMethods := ["GET", "HEAD", "OPTIONS"]
    respectRetryAfterHeader := true }

/-- Outcome of driving a request through the retrying transport. -/
inductive RetryOutcome where
  /-- A response was returned to the caller after the given number of
  attempts. -/
  | response (attempts : Nat) (status : Nat)
  /-- The retry budget was exhausted after the given number of attempts
  (`RetryError` / retry-exhausted). -/
  | retryExhausted (attempts : Nat)
deriving DecidableEq, Repr

/-- Modelled from the spec: the retry loop of the HTTP transport (the
`urllib3`-style retry machinery configured by `set_reties_property` lives
in the external `niquests` library, not in this repository).  Per spec
section 4.1 a request is attempted once and retried while the response
status is in the configured forcelist and the request method is in the
configured allowed methods, up to `total` retries; exhausting the budget
raises retry-exhausted.  `statuses n` is the status the origin returns to
attempt number `n+1`. -/
def runWithRetries (cfg : RetryConfiguration) (method : String)
    (statuses : Nat → Nat) : RetryOutcome :=
  go cfg.total 0
where
  /-- `budget` retries remain, `n` attempts already made. -/
  go : Nat → Nat → RetryOutcome
  | budget, n =>
    let st := statuses n
    if st ∈ cfg.statusForcelist ∧ method ∈ cfg.allowedMethods then
      match budget with
      | 0 => .retryExhausted (n + 1)
      | b + 1 => go b (n + 1)
    else
      .response (n + 1) st


/-! ## Weather configuration parsing (`scrape/weather.py`, lines 50-65) -/

/-- A Python/JSON value as returned by `config()`. -/
inductive JVal where
  | null
  | bool (b : Bool)
  | num (q : ℚ)
  | str (s : String)
  | arr (xs : List JVal)
  | obj (kvs : List (String × JVal))
deriving BEq, Repr

/-- The Python exceptions the config-parsing stage can produce. -/
inductive PyErr where
  | keyError (key : String)
  | typeError (msg : String)
  | valueError (msg : String)
deriving DecidableEq, Repr

/-- Python subscription `v[key]` with a string key: dict lookup raising
`KeyError` on a missing key, `TypeError` on a non-dict value. -/
def jGet (v : JVal) (key : String) : Except PyErr JVal :=
  match v with
  | .obj kvs =>
    match kvs.lookup key with
    | some x => .ok x
    | none => .error (.keyError key)
  | _ => .error (.typeError "value is not subscriptable by string")

/-- Python `str(v)`.  Only emptiness of the result is relied upon below;
the rendering of numbers and containers stands in for the CPython one
and agrees with it on being non-empty. -/
def pyStr : JVal → String
  | .null => "None"
  | .bool true => "True"
  | .bool false => "False"
  | .num q => toString q.num ++ (if q.den = 1 then "" else "/" ++ toString q.den)
  | .str s => s
  | .arr _ => "[...]"
  | .obj _ => "\x7b...\x7d"

/-- Python `dict(v)`: a dict is copied, an array converts only when every
element is a two-element array with a string key, anything else raises
(`TypeError` for non-iterables, `ValueError` for malformed sequences, as
CPython does). -/
def pyDict : JVal → Except PyErr (List (String × JVal))
  | .obj kvs => .ok kvs
  | .arr xs =>
    xs.mapM (fun x =>
      match x with
      | .arr [.str k, v] => .ok (k, v)
      | .arr _ => .error (.valueError "dictionary update sequence element has wrong length")
      | _ => .error (.typeError "cannot convert dictionary update sequence element"))
  | .null => .error (.typeError "argument of type NoneType is not iterable")
  | .bool _ => .error (.typeError "argument of type bool is not iterable")
  | .num _ => .error (.typeError "argument of type number is not iterable")
  | .str _ => .error (.valueError "dictionary update sequence element has wrong length")

/-- Result of the configuration-reading stage of `weather()`. -/
inductive ConfigStageResult where
  /-- The `except (ValueError, TypeError)` branch ran: the error was
  logged and `weather()` returned `False` before any network call. -/
  | returnFalse
  /-- An exception not named in the except clause escaped `weather()`. -/
  | raised (e : PyErr)
  /-- Parsing succeeded; `weather()` proceeds towards the API request. -/
  | proceed (url : String) (parameters : List (String × JVal))
      (locations : List (String × JVal))
deriving BEq, Repr

/-- The body of the `try` block in `weather()`:
`url = str(cfg["modules"]["weather"]["url"])`,
`parameters = dict(...["parameters"])`, `locations = dict(...["locations"])`,
then `if not (url and parameters): raise ValueError(...)`. -/
def weatherConfigRead (cfg : JVal) :
    Except PyErr (String × List (String × JVal) × List (String × JVal)) :=
  match jGet cfg "modules" with
  | .error e => .error e
  | .ok modules =>
  match jGet modules "weather" with
  | .error e => .error e
  | .ok wcfg =>
  match jGet wcfg "url" with
  | .error e => .error e
  | .ok vurl =>
  match jGet wcfg "parameters" with
  | .error e => .error e
  | .ok vparams =>
  match pyDict vparams with
  | .error e => .error e
  | .ok parameters =>
  match jGet wcfg "locations" with
  | .error e => .error e
  | .ok vlocs =>
  match pyDict vlocs with
  | .error e => .error e
  | .ok locations =>
  let url := pyStr vurl
  if url.isEmpty ∨ parameters.isEmpty then
    .error (.valueError "url or parameters is malformed (not None or empty)")
  else
    .ok (url, parameters, locations)

/-- Which exceptions the `except (ValueError, TypeError)` clause catches:
`KeyError` is not among them. -/
def isCaught : PyErr → Bool
  | .keyError _ => false
  | .typeError _ => true
  | .valueError _ => true

/-- The configuration stage of `weather()` (lines 50-65 of `weather.py`),
which runs before any network access: a caught error returns `False`, an
uncaught one propagates out of the function. -/
def weatherConfigStage (cfg : JVal) : ConfigStageResult :=
  match weatherConfigRead cfg with
  | .ok (u, p, l) => .proceed u p l
  | .error e => if isCaught e then .returnFalse else .raised e

/-! ## Weather parameter validation and row insertion (`weather.py`) -/

/-- `validate_parameters(requested, resolution)` for a schema snapshot
`validCols` (the `_columns_cache` entry for that resolution, loaded from
the `weather_parameters` table): the valid/invalid partition, both in
request order. -/
def validateParameters (validCols : List String) (requested : List String) :
    List String × List String :=
  (requested.filter (· ∈ validCols), requested.filter (· ∉ validCols))

/-- A SQL value stored in a weather row. -/
inductive SqlVal where
  | null
  | int (i : Int)
  | real (q : ℚ)
  | text (s : String)
deriving DecidableEq, Repr

/-- One table row, as the ordered column-to-value mapping the code builds. -/
abbrev Row := List (String × SqlVal)

/-- A Python value passed in `param_values` to `insert_weather_data`:
`None`, a scalar, or a numpy array (whose entries may be nulls). -/
inductive PyParamValue where
  | none
  | scalar (q : ℚ)
  | array (a : List (Option ℚ))
deriving DecidableEq, Repr

/-- In the `current` branch the raw value is the parameter value itself;
the later `float(val) if val is not None else None` cast maps `None` to
NULL, a scalar to a REAL, and raises on an array (`Option.none`). -/
def castCurrent : PyParamValue → Option SqlVal
  | .none => some .null
  | .scalar q => some (.real q)
  | .array _ => Option.none

/-- In the `hourly`/`daily` branch the raw value is
`arr[idx] if arr is not None else None` followed by the float cast;
indexing a scalar (`TypeError`) or indexing out of range (`IndexError`)
raises. -/
def castSeries : PyParamValue → Nat → Option SqlVal
  | .none, _ => some .null
  | .scalar _, _ => Option.none
  | .array a, idx =>
    match a.get? idx with
    | some (some q) => some (.real q)
    | some Option.none => some .null
    | Option.none => Option.none

/-- The parameter names that survive the schema re-intersection inside
`insert_weather_data` (`valid_names`). -/
def survivingNames (paramNames validColumns : List String) : List String :=
  ((paramNames.enum.filter (fun p => p.2 ∈ validColumns)).map (·.2))

/-- Build one row of the bulk insert: `{"timestamp": ts, "location":
location}` updated with one cast value per surviving column, including
the `None`-padding and the `strict=False` zip truncation of the code. -/
def buildRow (resolution location : String) (validNames : List String)
    (validArrays : List PyParamValue) (idx : Nat) (ts : Int) : Option Row := do
  let rawCast : List SqlVal ←
    if resolution = "current" then validArrays.mapM castCurrent
    else validArrays.mapM (castSeries · idx)
  let padded := rawCast ++
    List.replicate (validNames.length - rawCast.length) SqlVal.null
  return ("timestamp", .int ts) :: ("location", .text location) ::
    validNames.zip padded

/-- The conflict key of the generated statement: the `index_elements`
columns `(timestamp, location)` of a row. -/
def rowKey (r : Row) : Option SqlVal × Option SqlVal :=
  (r.lookup "timestamp", r.lookup "location")

/-- `ON CONFLICT (timestamp, location) DO UPDATE SET
\x7bname: excluded[name] for name in valid_names\x7d` for one incoming row
against the current table contents (SQLite upsert semantics; the rows of
the bulk execute are processed in order). -/
def updateVal (setCols : List String) (incoming : Row) (c : String)
    (v : SqlVal) : SqlVal :=
  if c ∈ setCols then (incoming.lookup c).getD v else v

/-- The `DO UPDATE` applied to one conflicting row: every `set_` column
takes the excluded (incoming) value, every other column is untouched. -/
def updateRow (setCols : List String) (incoming : Row) (r : Row) : Row :=
  r.map (fun cv => (cv.1, updateVal setCols incoming cv.1 cv.2))

def upsertRow (setCols : List String) (table : List Row) (incoming : Row) :
    List Row :=
  if table.any (fun r => rowKey r = rowKey incoming) then
    table.map (fun r =>
      if rowKey r = rowKey incoming then updateRow setCols incoming r else r)
  else table ++ [incoming]

/-- `insert_weather_data` from `weather.py`: re-intersect `param_names`
against the schema snapshot, build one row per timestamp keyed by
`timestamp` + `location` (the function receives no fetch time), and
perform the single bulk upsert on conflict key `(timestamp, location)`.
Returns the success flag and the new table contents; `Option.none`
models an uncaught exception from the row building.  The SQLAlchemy
execute-failure path (log and return `False`) belongs to the external
database driver and is not modelled. -/
def insertWeatherData (validColumns : List String) (table : List Row)
    (resolution location : String) (timestamps : List Int)
    (paramNames : List String) (paramValues : List PyParamValue) :
    Option (Bool × List Row) :=
  match ((paramNames.enum.filter (fun p => p.2 ∈ validColumns)).map
      (·.1)).mapM (fun i => paramValues.get? i) with
  | Option.none => Option.none
  | some validArrays =>
    if (survivingNames paramNames validColumns).isEmpty then
      some (false, table)
    else
      match timestamps.enum.mapM (fun p => buildRow resolution location
          (survivingNames paramNames validColumns) validArrays p.1 p.2) with
      | Option.none => Option.none
      | some rows =>
        some (true, rows.foldl
          (upsertRow (survivingNames paramNames validColumns)) table)


/-- Outcomes of `dict()` that keep control inside the `try` protection:
success or an exception the except clause catches. -/
def dictOkOrCaught (r : Except PyErr (List (String × JVal))) : Prop :=
  match r with
  | .ok _ => True
  | .error e => isCaught e = true

/-- The frame relation of the upsert: the successor row has the same
conflict key, the same column list, and the same value at every column
outside the updated set. -/
def FrameOk (setCols : List String) (r r2 : Row) : Prop :=
  rowKey r2 = rowKey r ∧ r2.map (·.1) = r.map (·.1) ∧
  ∀ c, c ∉ setCols → r2.lookup c = r.lookup c

/-! ## Weather runner registration (`scraper.py` / `weather.py`) -/

/-- Number of formal parameters of `def weather() -> bool` in
`weather.py` (line 37): the function takes no arguments. -/
def weatherParamCount : Nat := 0

/-- Number of positional arguments the registered weather runner
`lambda _, connection: weather(connection)` in `SCRAPE_TARGETS`
passes to `weather`. -/
def weatherRunnerArgCount : Nat := 1

/-- Outcome of a Python positional call. -/
inductive CallOutcome where
  | returns (b : Bool)
  | raisesTypeError
deriving DecidableEq, Repr

/-- Python call semantics for a function of fixed positional arity: a
mismatched argument count raises `TypeError` before the body runs. -/
def pyCall (paramCount argCount : Nat) (body : Unit → Bool) : CallOutcome :=
  if argCount = paramCount then .returns (body ()) else .raisesTypeError

/-- The orchestrator invocation `runner(args, db)` of the weather target:
the registered lambda receives the two arguments and calls `weather` with
one positional argument; `body` abstracts the function body, which only
runs when the arity check passes. -/
def weatherRunnerOutcome (body : Unit → Bool) : CallOutcome :=
  pyCall weatherParamCount weatherRunnerArgCount body

/-! ## Migration runner (`storage/__init__.py`) -/

/-- One row of the `migrations` tracking table. -/
structure MigrationRecord where
  id : String
  filename : String
  appliedAt : String
deriving DecidableEq, Repr

/-- The committed database state the migration runner manipulates: the
tracking table plus the committed effects of executed statements. -/
structure DbState where
  migrations : List MigrationRecord
  executed : List String
deriving DecidableEq, Repr

/-- The statements of a migration file: split on `;`, each stripped,
blank statements skipped. -/
def statementsOf (migration : String) : List String :=
  ((pySplit ';' migration).map pyStrip).filter (fun st => ¬ st.isEmpty)

/-- `_apply_migration(conn, migration, filepath, name)`: a
whitespace-only file is skipped entirely (nothing executed, no tracking
row); otherwise the statements run followed by the tracking-row insert
and the commit, and any statement failure (decided by the external
database, abstracted as `execFail`) rolls the file back and re-raises. -/
def applyMigration (execFail : String → Bool) (st : DbState)
    (migration filepath name appliedAt : String) : Except String DbState :=
  if (pyStrip migration).isEmpty then .ok st
  else if (statementsOf migration).any execFail then .error filepath
  else .ok ⟨st.migrations ++ [⟨filepath, name, appliedAt⟩],
    st.executed ++ statementsOf migration⟩

/-- Insertion into a name-sorted file list (Python `sorted` by name). -/
def insertSortedByName (x : String × String) :
    List (String × String) → List (String × String)
  | [] => [x]
  | y :: ys => if x.1 ≤ y.1 then x :: y :: ys else y :: insertSortedByName x ys

/-- `sorted(files, key=lambda p: p.name)`. -/
def sortByName : List (String × String) → List (String × String)
  | [] => []
  | x :: xs => insertSortedByName x (sortByName xs)

/-- `Path(name).stem`: the file name up to its last extension. -/
def pathStem (s : String) : String :=
  let parts := pySplit '.' s
  if parts.length ≤ 1 then s else String.intercalate "." parts.dropLast

/-- `_apply_migrations(conn)`: the applied-id set is read once, the
`.sql` files (given as (name, content) pairs) are processed sorted by
name, files already recorded are skipped, the rest go through
`_apply_migration`; a failure aborts the run. -/
def applyMigrations (execFail : String → Bool) (st : DbState)
    (files : List (String × String)) (appliedAt : String) :
    Except String DbState :=
  let applied := st.migrations.map (·.id)
  (sortByName files).foldlM
    (fun st2 file =>
      if file.1 ∈ applied then .ok st2
      else applyMigration execFail st2 file.2 file.1 (pathStem file.1)
        appliedAt)
    st

/-! ## Weather response processing loop (`weather.py`, lines 178-327) -/

/-- The `Current()` block of an API response: an observation time and the
indexed variables (`Variables(idx)` may return nothing). -/
structure CurrentData where
  time : Int
  vars : List (Option ℚ)
deriving DecidableEq, Repr

/-- An `Hourly()`/`Daily()` block: the time range and the indexed
variable arrays. -/
structure SeriesData where
  timeStart : Int
  timeEnd : Int
  interval : Int
  vars : List (Option (List (Option ℚ)))
deriving DecidableEq, Repr

/-- One `WeatherApiResponse`. -/
structure WeatherResponse where
  latitude : ℚ
  longitude : ℚ
  current : Option CurrentData
  hourly : Option SeriesData
  daily : Option SeriesData
deriving DecidableEq, Repr

/-- Python `abs` on a rational. -/
def ratAbs (q : ℚ) : ℚ := if q < 0 then -q else q

/-- `_is_close(a, b)`: `abs(a - b) < 1e-2 * 3`.  The float product
`1e-2 * 3` is within 4e-18 of the rational 3/100 used here; no claim
exercises that margin. -/
def isClose (a b : ℚ) : Bool := ratAbs (a - b) < 3 / 100

/-- Matching a response to the first enabled location whose latitude and
longitude are both close (`(name, latitude, longitude)` triples). -/
def matchLocation (locations : List (String × ℚ × ℚ))
    (resp : WeatherResponse) : Option String :=
  (locations.find? (fun loc =>
    isClose resp.latitude loc.2.1 ∧ isClose resp.longitude loc.2.2)).map (·.1)

/-- Python `range(start, stop, step)` for a positive step (the API
interval is positive; `range` with step 0 raises and never occurs here). -/
def pyRange (start stop step : Int) : List Int :=
  if step ≤ 0 then []
  else (List.range (((stop - start + step - 1) / step).toNat)).map
    (fun i => start + step * i)

/-- One recorded `insert_weather_data` call of the response loop. -/
structure InsertCall where
  resolution : String
  location : String
  timestamps : List Int
  paramNames : List String
  paramValues : List PyParamValue
deriving DecidableEq, Repr

/-- `current.Variables(idx)` filtered as in
`[var.Value() for idx in range(len(valid_current)) if (var := current.Variables(idx)) is not None]`. -/
def currentValues (cur : CurrentData) (n : Nat) : List PyParamValue :=
  ((List.range n).filterMap (fun idx => (cur.vars.get? idx).join)).map
    PyParamValue.scalar

/-- The analogous list of `ValuesAsNumpy()` arrays for a series block. -/
def seriesValues (ser : SeriesData) (n : Nat) : List PyParamValue :=
  ((List.range n).filterMap (fun idx => (ser.vars.get? idx).join)).map
    PyParamValue.array

/-- The body of the per-response loop in `weather()`.  Returns the
`insert_weather_data` calls made for this response and whether
`saved += 1` was reached.  The three `continue` statements fire when a
requested resolution comes back `None`: they abandon the rest of the
location (later resolutions and the `saved` increment), which this
encoding makes explicit. -/
def processResponse (validCurrent validHourly validDaily : List String)
    (locations : List (String × ℚ × ℚ)) (resp : WeatherResponse) :
    List InsertCall × Bool :=
  match matchLocation locations resp with
  | Option.none => ([], false)
  | some name =>
    if ¬ validCurrent.isEmpty ∧ resp.current.isNone then
      ([], false)
    else
      let evCur : List InsertCall :=
        match validCurrent.isEmpty, resp.current with
        | false, some cur =>
          [⟨"current", name, [cur.time], validCurrent,
            currentValues cur validCurrent.length⟩]
        | _, _ => []
      if ¬ validHourly.isEmpty ∧ resp.hourly.isNone then
        (evCur, false)
      else
        let evHour : List InsertCall :=
          match validHourly.isEmpty, resp.hourly with
          | false, some ser =>
            [⟨"hourly", name, pyRange ser.timeStart ser.timeEnd ser.interval,
              validHourly, seriesValues ser validHourly.length⟩]
          | _, _ => []
        if ¬ validDaily.isEmpty ∧ resp.daily.isNone then
          (evCur ++ evHour, false)
        else
          let evDay : List InsertCall :=
            match validDaily.isEmpty, resp.daily with
            | false, some ser =>
              [⟨"daily", name, pyRange ser.timeStart ser.timeEnd ser.interval,
                validDaily, seriesValues ser validDaily.length⟩]
            | _, _ => []
          (evCur ++ evHour ++ evDay, true)

/-- The full response loop: every response is processed, the insert calls
accumulate, `saved` counts the responses that reached `saved += 1`, and
the overall success flag (before the commit/rollback bookkeeping) is
`saved > 0`. -/
def weatherStoreLoop (validCurrent validHourly validDaily : List String)
    (locations : List (String × ℚ × ℚ))
    (responses : List WeatherResponse) : List InsertCall × Bool :=
  let results := responses.map
    (processResponse validCurrent validHourly validDaily locations)
  (results.flatMap (·.1), 0 < results.countP (·.2))

/-! ## Occupancy HTML parser (`scrape/kletterzentrum.py`) -/

/-- A node of the parsed HTML tree.  Building this tree from the raw
text is done by BeautifulSoup (external); `_parse_html` receives the
soup and the raw string, so the embedding takes both (see `HtmlInput`). -/
inductive Node where
  | element (tag : String) (attrs : List (String × String))
      (children : List Node)
  | textNode (s : String)
deriving BEq, Repr

def tagOf : Node → String
  | .element t _ _ => t
  | .textNode _ => ""

def attrsOf : Node → List (String × String)
  | .element _ a _ => a
  | .textNode _ => []

def childrenOf : Node → List Node
  | .element _ _ cs => cs
  | .textNode _ => []

mutual
/-- The text strings of a node in document order (`self.strings`). -/
def textPieces : Node → List String
  | .textNode s => [s]
  | .element _ _ cs => textPiecesList cs
def textPiecesList : List Node → List String
  | [] => []
  | n :: ns => textPieces n ++ textPiecesList ns
end

/-- `get_text(strip=True)`: the stripped text pieces, concatenated. -/
def pyGetTextStrip (n : Node) : String :=
  String.join ((textPieces n).map pyStrip)

mutual
/-- All element nodes of a subtree in document (preorder) order. -/
def elementsOf : Node → List Node
  | .textNode _ => []
  | .element t a cs => .element t a cs :: elementsOfList cs
def elementsOfList : List Node → List Node
  | [] => []
  | n :: ns => elementsOf n ++ elementsOfList ns
end

/-- All element nodes of a document in document order. -/
def docElements (dom : List Node) : List Node := elementsOfList dom

/-- The proper descendants of a node (what `select` searches). -/
def descendantsOf (n : Node) : List Node := elementsOfList (childrenOf n)

/-- Split a character list into whitespace-separated words (how
BeautifulSoup tokenizes the multi-valued `class` attribute). -/
def wordsAux : List Char → List Char → List (List Char)
  | [], acc => if acc.isEmpty then [] else [acc.reverse]
  | c :: rest, acc =>
    if isPySpace c then
      if acc.isEmpty then wordsAux rest [] else acc.reverse :: wordsAux rest []
    else wordsAux rest (c :: acc)

/-- The class tokens of an attribute list. -/
def classesOf (attrs : List (String × String)) : List String :=
  match attrs.lookup "class" with
  | Option.none => []
  | some s => (wordsAux s.toList []).map String.mk

/-- CSS class membership of an element. -/
def hasClass (n : Node) (c : String) : Bool := c ∈ classesOf (attrsOf n)

/-- Python `needle in hay` on strings. -/
def containsSub (hay needle : String) : Bool :=
  hay.toList.tails.any (fun t => needle.toList.isPrefixOf t)

/-- The numeric value of a digit run. -/
def digitsToNat (ds : List Char) : Nat :=
  ds.foldl (fun n c => 10 * n + (c.toNat - 48)) 0

/-- `re.search(r"(\d\x7b1,3\x7d)", txt)`: the first digit run, capped
greedily at three digits. -/
def firstInt13 : List Char → Option Nat
  | [] => Option.none
  | c :: rest =>
    if c.isDigit then
      some (digitsToNat (c :: (rest.takeWhile Char.isDigit).take 2))
    else firstInt13 rest

/-- `re.search(r"\d+", txt)`: the first maximal digit run. -/
def firstIntAll : List Char → Option Nat
  | [] => Option.none
  | c :: rest =>
    if c.isDigit then some (digitsToNat (c :: rest.takeWhile Char.isDigit))
    else firstIntAll rest

/-- `int(s)` after stripping: an optional sign followed by digits only
(the exotic forms CPython also accepts, underscore separators and
non-ASCII digits, do not occur in this data). -/
def pyIntChars (l : List Char) : Option Int :=
  match l with
  | '+' :: ds => (digitsOnly ds).map Int.ofNat
  | '-' :: ds => (digitsOnly ds).map (fun n => -(Int.ofNat n))
  | ds => (digitsOnly ds).map Int.ofNat
where
  digitsOnly (ds : List Char) : Option Nat :=
    if ¬ ds.isEmpty ∧ ds.all Char.isDigit then some (digitsToNat ds)
    else Option.none

/-- Try the regex `height:\s*(\d\x7b1,3\x7d)%` anchored at the head of the
list; on success return the captured value and the characters after the
match. -/
def matchHeightAt : List Char → Option (Nat × List Char)
  | 'h' :: 'e' :: 'i' :: 'g' :: 'h' :: 't' :: ':' :: rest =>
    let rest2 := rest.dropWhile isPySpace
    let ds := rest2.takeWhile Char.isDigit
    let after := rest2.dropWhile Char.isDigit
    if 1 ≤ ds.length ∧ ds.length ≤ 3 then
      match after with
      | '%' :: tail => some (digitsToNat ds, tail)
      | _ => Option.none
    else Option.none
  | _ => Option.none

/-- The scan of `re.findall`: non-overlapping matches, resuming after a
match or shifting one character otherwise.  Each step consumes at least
one character, so fuel equal to the input length makes this the exact
findall. -/
def scanHeightsFuel : Nat → List Char → List Nat
  | 0, _ => []
  | _, [] => []
  | fuel + 1, c :: rest =>
    match matchHeightAt (c :: rest) with
    | some (n, tail) => n :: scanHeightsFuel fuel tail
    | Option.none => scanHeightsFuel fuel rest

/-- `re.findall(r"height:\s*(\d\x7b1,3\x7d)%", html)` as integer values. -/
def cssHeights (s : String) : List Nat :=
  scanHeightsFuel s.toList.length s.toList

/-- The parsed occupancy dataclass. -/
structure KletterzentrumOccupancyData where
  overall : Option Int := Option.none
  seil : Option Int := Option.none
  boulder : Option Int := Option.none
  openSectors : Option Int := Option.none
  totalSectors : Option Int := Option.none
deriving DecidableEq, Repr

/-- The input of `_parse_html`: the raw HTML string and its
BeautifulSoup parse. -/
structure HtmlInput where
  raw : String
  dom : List Node

/-- Step 1 of `_parse_html`: h2 elements with the primary-text class, or
all h2 elements when none carry it; the first integer substring wins. -/
def parseOverall (dom : List Node) : Option Nat :=
  let primary := (docElements dom).filter
    (fun e => tagOf e = "h2" ∧ hasClass e "x-text-content-text-primary")
  let candidates := if primary.isEmpty
    then (docElements dom).filter (fun e => tagOf e = "h2") else primary
  candidates.findSome? (fun e => firstInt13 (pyGetTextStrip e).toList)

/-- A `div.bar[data-percentage]` element. -/
def isBarPercDiv (e : Node) : Bool :=
  tagOf e = "div" ∧ hasClass e "bar" ∧
    ((attrsOf e).lookup "data-percentage").isSome

/-- One iteration of the `.bar-container` loop of step 2. -/
def sectionStep (sb : Option Int × Option Int) (container : Node) :
    Option Int × Option Int :=
  match (descendantsOf container).find?
      (fun e => tagOf e = "span" ∧ hasClass e "label"),
    (descendantsOf container).find? isBarPercDiv with
  | some labelEl, some percEl =>
    let label := pyLower (pyGetTextStrip labelEl)
    match (attrsOf percEl).lookup "data-percentage" with
    | Option.none => sb
    | some raw =>
      match pyIntChars (pyStripChars raw.toList) with
      | Option.none => sb
      | some perc =>
        if containsSub label "seil" then (some perc, sb.2)
        else if containsSub label "boulder" then (sb.1, some perc)
        else sb
  | _, _ => sb

/-- Step 2 of `_parse_html`: the seil/boulder percentages from the bar
containers. -/
def parseSections (dom : List Node) : Option Int × Option Int :=
  ((docElements dom).filter (fun e => hasClass e "bar-container")).foldl
    sectionStep (Option.none, Option.none)

/-- Step 3 of `_parse_html`: the inline-CSS fallback, filling only the
still-null slots from the `height: N%` occurrences of the raw text. -/
def parseCss (raw : String) (sb : Option Int × Option Int) :
    Option Int × Option Int :=
  if sb.1.isNone ∨ sb.2.isNone then
    let ints := (cssHeights raw).map Int.ofNat
    let s2 := match sb.1, ints.get? 0 with
      | Option.none, some v => some v
      | s, _ => s
    let b2 := match sb.2, ints.get? 1 with
      | Option.none, some v => some v
      | b, _ => b
    (s2, b2)
  else sb

/-- The first node satisfying `p` in document order, together with the
nodes after it (what `find_next` searches from). -/
def splitAtFirst (p : Node → Bool) : List Node → Option (Node × List Node)
  | [] => Option.none
  | e :: rest => if p e then some (e, rest) else splitAtFirst p rest

/-- Step 4 of `_parse_html`: the `offene sektoren` heading and the
`first`/`second` marker spans after it. -/
def parseOpenSectors (dom : List Node) : Option Int × Option Int :=
  match splitAtFirst (fun e => (tagOf e = "h3" ∨ tagOf e = "h2") ∧
      containsSub (pyLower (pyGetTextStrip e)) "offene sektoren")
      (docElements dom) with
  | Option.none => (Option.none, Option.none)
  | some (_, rest) =>
    let firstSpan := rest.find?
      (fun e => tagOf e = "span" ∧ hasClass e "first")
    let secondSpan := rest.find?
      (fun e => tagOf e = "span" ∧ hasClass e "second")
    ((firstSpan.bind
        (fun e => firstIntAll (pyGetTextStrip e).toList)).map Int.ofNat,
     (secondSpan.bind
        (fun e => firstIntAll (pyGetTextStrip e).toList)).map Int.ofNat)

/-- `_parse_html(html)`: the four extraction steps in order.  The
function is total: the try/except blocks of the source isolate each step,
and no step of this embedding can fail. -/
def parseHtml (input : HtmlInput) : KletterzentrumOccupancyData :=
  let overall := (parseOverall input.dom).map Int.ofNat
  let sb := parseSections input.dom
  let sb2 := parseCss input.raw sb
  let ot := parseOpenSectors input.dom
  ⟨overall, sb2.1, sb2.2, ot.1, ot.2⟩

/-! ## Kletterzentrum runner (`kletterzentrum.py`, `kletterzentrum(args, connection)`) -/

/-- The CLI arguments the runner consults. -/
structure ScrapeArgs where
  dryRun : Bool
deriving DecidableEq, Repr

/-- How a live fetch can end, as far as the runner can observe: a body,
an `HTTPError` raised by `raise_for_status` (caught), or any other
transport exception (uncaught at this level). -/
inductive FetchErr where
  | httpError
  | transportError
deriving DecidableEq, Repr

/-- One executed `INSERT INTO kletterzentrum_data` statement. -/
structure OccupancyInsert where
  fetchedAt : Int
  data : KletterzentrumOccupancyData
deriving DecidableEq, Repr

/-- The observable result of one `kletterzentrum(args, connection)`
call: the outcome (returned flag or uncaught exception), the INSERT
statements executed on the passed connection, and the cache-file writes. -/
structure KletterResult where
  outcome : Except String Bool
  dbWrites : List OccupancyInsert
  cacheWrites : List String
deriving Repr

/-- `if not parsed:` on the returned dataclass instance:
`KletterzentrumOccupancyData` defines neither `__bool__` nor `__len__`,
so the instance is always truthy. -/
def dataclassTruthy : Bool := true

/-- The `modules.kletterzentrum.url` lookup guarded by the chained
`in`-checks of the source (a non-dict configuration value fails the
checks). -/
def cfgKletterUrl (cfg : JVal) : Option JVal :=
  match cfg with
  | .obj kvs =>
    match kvs.lookup "modules" with
    | some (.obj m) =>
      match m.lookup "kletterzentrum" with
      | some (.obj k) => k.lookup "url"
      | _ => Option.none
    | _ => Option.none
  | _ => Option.none

/-- `kletterzentrum(args, connection)`: dry-run replays the cached HTML
(raising `FileNotFoundError` when absent) and returns before any
database access; the live path resolves the url from config, fetches
(`fetch` abstracts the transport), caches the body, parses, and inserts
one occupancy row (`insertFails` abstracts a database error, which is
caught and turns the result into `False`).  `parseDom` abstracts the
BeautifulSoup parser, `now` the `datetime.now` timestamp. -/
def kletterzentrum (args : ScrapeArgs) (cfg : JVal) (cache : Option String)
    (fetch : Except FetchErr String) (parseDom : String → List Node)
    (now : Int) (insertFails : Bool) : KletterResult :=
  match args.dryRun, cache with
  | true, Option.none => ⟨.error "FileNotFoundError", [], []⟩
  | true, some cachedHtml =>
    let parsed := parseHtml ⟨cachedHtml, parseDom cachedHtml⟩
    if ¬ dataclassTruthy then ⟨.ok false, [], []⟩
    else ⟨.ok true, [], []⟩
  | false, _ =>
    match cfgKletterUrl cfg with
    | Option.none => ⟨.ok false, [], []⟩
    | some _ =>
      match fetch with
      | .error .httpError => ⟨.ok false, [], []⟩
      | .error .transportError => ⟨.error "uncaught transport error", [], []⟩
      | .ok respText =>
        let html := if (pyStrip respText).isEmpty then "" else respText
        let parsed := parseHtml ⟨html, parseDom html⟩
        if ¬ dataclassTruthy then ⟨.ok false, [], [html]⟩
        else if insertFails then ⟨.ok false, [], [html]⟩
        else ⟨.ok true, [⟨now, parsed⟩], [html]⟩

/-! ## Lemmas and claim theorems -/

theorem foldl_appendNew_append (l₁ l₂ : List String) (s : List String) :
    (l₁ ++ l₂).foldl appendNew s = l₂.foldl appendNew (l₁.foldl appendNew s) :=
  List.foldl_append ..

theorem resolveStep_fst (acc : List String × List String) (token : String) :
    (resolveStep acc token).1 = (expandToken token).foldl appendNew acc.1 := by
  unfold resolveStep expandToken
  by_cases hall : token = "all"
  · simp [hall, targetIds, List.foldl_map]
  · by_cases hmem : token ∈ targetIds
    · by_cases hsel : token ∈ acc.1
      · simp [hall, hmem, hsel, appendNew]
      · simp [hall, hmem, hsel, appendNew]
    · simp [hall, hmem]

theorem resolve_foldl_fst (tokens : List String)
    (acc : List String × List String) :
    (tokens.foldl resolveStep acc).1 =
      (tokens.flatMap expandToken).foldl appendNew acc.1 := by
  induction tokens generalizing acc with
  | nil => rfl
  | cons t ts ih =>
      rw [List.foldl_cons, ih, List.flatMap_cons, foldl_appendNew_append,
        resolveStep_fst]

theorem appendNew_nodup {s : List String} (h : s.Nodup) (x : String) :
    (appendNew s x).Nodup := by
  unfold appendNew
  by_cases hx : x ∈ s
  · simpa [hx]
  · simpa [hx] using List.Nodup.append h (List.nodup_singleton x)
      (by simpa using hx)

theorem foldl_appendNew_nodup (l : List String) :
    ∀ s : List String, s.Nodup → (l.foldl appendNew s).Nodup := by
  induction l with
  | nil => intro s h; simpa
  | cons x xs ih => intro s h; exact ih _ (appendNew_nodup h x)

theorem mem_foldl_appendNew {x : String} (l : List String) :
    ∀ s : List String, x ∈ l.foldl appendNew s → x ∈ s ∨ x ∈ l := by
  induction l with
  | nil => intro s h; exact Or.inl h
  | cons y ys ih =>
      intro s h
      rcases ih (appendNew s y) h with h1 | h1
      · unfold appendNew at h1
        by_cases hy : y ∈ s
        · simp [hy] at h1; exact Or.inl h1
        · simp [hy] at h1
          rcases h1 with h1 | h1
          · exact Or.inl h1
          · exact Or.inr (by simp [h1])
      · exact Or.inr (by simp [h1])

theorem mem_expandToken {x token : String} (h : x ∈ expandToken token) :
    x ∈ targetIds := by
  unfold expandToken at h
  by_cases hall : token = "all"
  · simpa [hall] using h
  · by_cases hmem : token ∈ targetIds
    · simp [hall, hmem] at h; simpa [h]
    · simp [hall, hmem] at h

theorem resolve_selections_nodup (tokens : List String) :
    ((tokens.foldl resolveStep ([], [])).1).Nodup := by
  rw [resolve_foldl_fst]
  exact foldl_appendNew_nodup _ _ List.nodup_nil

theorem resolve_selections_subset {x : String} (tokens : List String)
    (h : x ∈ (tokens.foldl resolveStep ([], [])).1) : x ∈ targetIds := by
  rw [resolve_foldl_fst] at h
  rcases mem_foldl_appendNew _ _ h with h1 | h1
  · simp at h1
  · rcases List.mem_flatMap.mp h1 with ⟨tok, _, hx⟩
    exact mem_expandToken hx

theorem resolve_warns_mono {x : String} (tokens : List String) :
    ∀ acc : List String × List String, x ∈ acc.2 →
      x ∈ (tokens.foldl resolveStep acc).2 := by
  induction tokens with
  | nil => intro acc h; exact h
  | cons t ts ih =>
      intro acc h
      rw [List.foldl_cons]
      apply ih
      unfold resolveStep
      by_cases hall : t = "all"
      · simpa [hall]
      · by_cases hsel : t ∈ targetIds ∧ t ∉ acc.1
        · simpa [hall, hsel]
        · simp [hall, hsel]
          exact Or.inl h

theorem resolve_unknown_warned {tok : String} (tokens : List String)
    (hmem : tok ∈ tokens) (hall : tok ≠ "all") (hunk : tok ∉ targetIds) :
    ∀ acc : List String × List String,
      tok ∈ (tokens.foldl resolveStep acc).2 := by
  induction tokens with
  | nil => cases hmem
  | cons t ts ih =>
      intro acc
      rcases List.mem_cons.mp hmem with h | h
      · subst h
        rw [List.foldl_cons]
        apply resolve_warns_mono
        unfold resolveStep
        have hno : ¬ (tok ∈ targetIds ∧ tok ∉ acc.1) := fun h => hunk h.1
        simp [hall, hno]
      · exact ih h _

/-- C5: explicit target resolution: `all` expands to every defined target
id in insertion order, known tokens are kept in first-seen order and
de-duplicated, unrecognized tokens are dropped (never selected) and drawn
a warning; in particular for every reference time the raw string
`all,unknown,weather` resolves to `["weather", "kletterzentrum"]`. -/
theorem resolve_targets_explicit_C5 :
    (∀ t : TimeHM, (resolveTargets (some "all,unknown,weather") t).1 =
        ["weather", "kletterzentrum"]) ∧
    (∀ t : TimeHM, (resolveTargets (some "all") t).1 = targetIds) ∧
    (∀ raw : String, ∀ t : TimeHM, ((resolveTargets (some raw) t).1).Nodup) ∧
    (∀ raw : String, ∀ t : TimeHM, ∀ x ∈ (resolveTargets (some raw) t).1,
      x ∈ targetIds) ∧
    (∀ raw : String, ∀ t : TimeHM, ∀ tok ∈ tokenize raw, tok ≠ "all" →
      tok ∉ targetIds → tok ∉ (resolveTargets (some raw) t).1 ∧
        tok ∈ (resolveTargets (some raw) t).2) := by
  refine ⟨fun t =>
    (by decide : ((tokenize "all,unknown,weather").foldl resolveStep
      ([], [])).1 = ["weather", "kletterzentrum"]),
    fun t =>
    (by decide : ((tokenize "all").foldl resolveStep ([], [])).1 = targetIds),
    fun raw t => resolve_selections_nodup (tokenize raw),
    fun raw t x hx => resolve_selections_subset (tokenize raw) hx,
    fun raw t tok hmem hall hunk =>
      ⟨fun hsel => hunk (resolve_selections_subset (tokenize raw) hsel),
       resolve_unknown_warned (tokenize raw) hmem hall hunk _⟩⟩

/-- Witness for C5: the hypothesis-bearing conjunct applied at the
concrete raw string with the unknown token. -/
theorem resolve_targets_explicit_C5_witness :
    "unknown" ∉ (resolveTargets (some "all,unknown,weather") ⟨10, 0⟩).1 ∧
      "unknown" ∈ (resolveTargets (some "all,unknown,weather") ⟨10, 0⟩).2 :=
  resolve_targets_explicit_C5.2.2.2.2 "all,unknown,weather" ⟨10, 0⟩ "unknown"
    (by decide) (by decide) (by decide)

/-- C6: the scrape session is configured with 3 retries (4 total
attempts), zero backoff, forcelist {429, 500, 502, 503, 504}, methods
{GET, HEAD, OPTIONS}, Retry-After honored; three 500s then a 200 yield
the 200 after 4 attempts, four straight 500s exhaust the retries after
exactly 4 attempts, a non-forcelisted status and a non-allowed method are
never retried. -/
theorem retry_session_C6 :
    scrapeRetryConfiguration.total = 3 ∧
    scrapeRetryConfiguration.total + 1 = 4 ∧
    scrapeRetryConfiguration.backoffFactor = 0 ∧
    scrapeRetryConfiguration.statusForcelist = [429, 500, 502, 503, 504] ∧
    scrapeRetryConfiguration.allowedMethods = ["GET", "HEAD", "OPTIONS"] ∧
    scrapeRetryConfiguration.respectRetryAfterHeader = true ∧
    runWithRetries scrapeRetryConfiguration "GET"
        (fun n => if n < 3 then 500 else 200) = .response 4 200 ∧
    runWithRetries scrapeRetryConfiguration "GET" (fun _ => 500) =
        .retryExhausted 4 ∧
    (∀ st : Nat, st ∉ scrapeRetryConfiguration.statusForcelist →
      ∀ method : String, runWithRetries scrapeRetryConfiguration method
        (fun _ => st) = .response 1 st) ∧
    (∀ method : String, method ∉ scrapeRetryConfiguration.allowedMethods →
      ∀ statuses : Nat → Nat, runWithRetries scrapeRetryConfiguration method
        statuses = .response 1 (statuses 0)) := by
  refine ⟨rfl, rfl, rfl, rfl, rfl, rfl, by rfl, by rfl, ?_, ?_⟩
  · intro st hst method
    unfold runWithRetries runWithRetries.go
    simp [hst]
  · intro method hm statuses
    unfold runWithRetries runWithRetries.go
    simp [hm]

/-- Witness for C6: the never-retried conjuncts applied at status 404 and
method POST. -/
theorem retry_session_C6_witness :
    runWithRetries scrapeRetryConfiguration "GET" (fun _ => 404) =
        .response 1 404 ∧
    runWithRetries scrapeRetryConfiguration "POST" (fun _ => 500) =
        .response 1 500 :=
  ⟨retry_session_C6.2.2.2.2.2.2.2.2.1 404 (by decide) "GET",
   retry_session_C6.2.2.2.2.2.2.2.2.2 "POST" (by decide) (fun _ => 500)⟩


/-- C4 counterexample: a configuration whose weather section lacks the
`url` key makes the config stage of `weather()` raise `KeyError` out of
the function instead of returning false, because the except clause only
names `ValueError` and `TypeError`. -/
theorem weather_config_missing_url_raises_C4_counterexample :
    weatherConfigStage (.obj [("modules", .obj [("weather", .obj [])])]) =
      .raised (.keyError "url") ∧
    weatherConfigStage (.obj [("modules", .obj [("weather", .obj [])])]) ≠
      .returnFalse :=
  ⟨rfl, fun h => nomatch h⟩

/-- C4 amended: when the `url`, `parameters` and `locations` keys are all
present (and each `dict()` conversion succeeds or fails with a caught
error), an empty url string or an empty/unconvertible parameter map makes
the config stage return false before any network access.  (A missing key
instead raises, see the counterexample.) -/
theorem weather_config_empty_returns_false_C4
    (cfg modules wcfg vurl vparams vlocs : JVal)
    (hm : jGet cfg "modules" = .ok modules)
    (hw : jGet modules "weather" = .ok wcfg)
    (hu : jGet wcfg "url" = .ok vurl)
    (hp : jGet wcfg "parameters" = .ok vparams)
    (hl : jGet wcfg "locations" = .ok vlocs)
    (hparams : dictOkOrCaught (pyDict vparams))
    (hloc : dictOkOrCaught (pyDict vlocs))
    (hempty : (pyStr vurl).isEmpty = true ∨ pyDict vparams = .ok [] ∨
      (∃ e, pyDict vparams = .error e ∧ isCaught e = true)) :
    weatherConfigStage cfg = .returnFalse := by
  unfold weatherConfigStage weatherConfigRead
  rw [hm]; dsimp only; rw [hw]; dsimp only; rw [hu]; dsimp only
  rw [hp]; dsimp only
  rcases hempty with hurl | hps | ⟨e, he, hc⟩
  · cases hpd : pyDict vparams with
    | error e =>
        rw [hpd] at hparams
        simp only [dictOkOrCaught] at hparams
        simp [hparams]
    | ok ps =>
        rw [hl]; dsimp only
        cases hld : pyDict vlocs with
        | error e2 =>
            rw [hld] at hloc
            simp only [dictOkOrCaught] at hloc
            simp [hloc]
        | ok ls => simp [hurl, isCaught]
  · rw [hps]; dsimp only
    rw [hl]; dsimp only
    cases hld : pyDict vlocs with
    | error e2 =>
        rw [hld] at hloc
        simp only [dictOkOrCaught] at hloc
        simp [hloc]
    | ok ls => simp [isCaught]
  · rw [he]
    simp [hc]

/-- Witness for C4: a present-but-empty url string returns false. -/
theorem weather_config_empty_returns_false_C4_witness :
    weatherConfigStage (.obj [("modules", .obj [("weather", .obj
      [("url", .str ""), ("parameters", .obj [("hourly", .arr [])]),
       ("locations", .obj [])])])]) = .returnFalse :=
  weather_config_empty_returns_false_C4
    (.obj [("modules", .obj [("weather", .obj
      [("url", .str ""), ("parameters", .obj [("hourly", .arr [])]),
       ("locations", .obj [])])])])
    (.obj [("weather", .obj [("url", .str ""),
      ("parameters", .obj [("hourly", .arr [])]), ("locations", .obj [])])])
    (.obj [("url", .str ""), ("parameters", .obj [("hourly", .arr [])]),
      ("locations", .obj [])])
    (.str "") (.obj [("hourly", .arr [])]) (.obj [])
    rfl rfl rfl rfl rfl trivial trivial (Or.inl rfl)

/-- C2: `insert_weather_data` carries no fetch time at all: its rows hold
only `timestamp`, `location` and the surviving parameter columns, and the
upsert conflicts on `(timestamp, location)`, so re-inserting the same
forecast timestamp for the same location at a later fetch time overwrites
the previously inserted value in place instead of creating a new snapshot
row. -/
theorem insert_weather_refetch_overwrites_C2 :
    (insertWeatherData ["temperature_2m"] [] "hourly" "loc" [1]
      ["temperature_2m"] [.array [some 10]] =
      some (true, [[("timestamp", .int 1), ("location", .text "loc"),
        ("temperature_2m", .real 10)]])) ∧
    (insertWeatherData ["temperature_2m"]
      [[("timestamp", SqlVal.int 1), ("location", SqlVal.text "loc"),
        ("temperature_2m", SqlVal.real 10)]] "hourly" "loc" [1]
      ["temperature_2m"] [.array [some 20]] =
      some (true, [[("timestamp", .int 1), ("location", .text "loc"),
        ("temperature_2m", .real 20)]])) ∧
    "fetched_at" ∉ ([("timestamp", SqlVal.int 1),
      ("location", SqlVal.text "loc"),
      ("temperature_2m", SqlVal.real 20)].map (·.1)) :=
  ⟨rfl, rfl, by decide⟩

theorem lookup_updateRow (setCols : List String) (incoming : Row) :
    ∀ (r : Row) (c : String),
    (updateRow setCols incoming r).lookup c =
      (r.lookup c).map (updateVal setCols incoming c) := by
  intro r c
  induction r with
  | nil => rfl
  | cons hd tl ih =>
      obtain ⟨k, v⟩ := hd
      by_cases hk : k = c
      · subst hk; simp [updateRow, List.lookup]
      · have hkc : (c == k) = false :=
          beq_eq_false_iff_ne.mpr (fun h => hk h.symm)
        simp only [updateRow, List.map_cons, List.lookup] at *
        simp [hkc, ih]

theorem map_fst_updateRow (setCols : List String) (incoming : Row) (r : Row) :
    (updateRow setCols incoming r).map (·.1) = r.map (·.1) := by
  unfold updateRow
  rw [List.map_map]
  exact List.map_congr_left (fun a _ => rfl)

theorem lookup_updateRow_key (setCols : List String) (incoming r : Row)
    (c : String) (hc : r.lookup c = incoming.lookup c) :
    (updateRow setCols incoming r).lookup c = r.lookup c := by
  rw [lookup_updateRow]
  by_cases hs : c ∈ setCols
  · cases ho : r.lookup c with
    | none => rfl
    | some v =>
        have : incoming.lookup c = some v := hc ▸ ho
        simp [updateVal, hs, this]
  · cases ho : r.lookup c <;> simp [updateVal, hs]

theorem frameOk_refl (setCols : List String) (r : Row) : FrameOk setCols r r :=
  ⟨rfl, rfl, fun _ _ => rfl⟩

theorem frameOk_trans {setCols : List String} {r1 r2 r3 : Row}
    (h12 : FrameOk setCols r1 r2) (h23 : FrameOk setCols r2 r3) :
    FrameOk setCols r1 r3 :=
  ⟨h23.1.trans h12.1, h23.2.1.trans h12.2.1,
   fun c hc => (h23.2.2 c hc).trans (h12.2.2 c hc)⟩

theorem updateRow_frameOk (setCols : List String) (incoming r : Row)
    (hkey : rowKey r = rowKey incoming) :
    FrameOk setCols r (updateRow setCols incoming r) := by
  have hts : r.lookup "timestamp" = incoming.lookup "timestamp" :=
    congrArg Prod.fst hkey
  have hloc : r.lookup "location" = incoming.lookup "location" :=
    congrArg Prod.snd hkey
  refine ⟨?_, map_fst_updateRow setCols incoming r, ?_⟩
  · unfold rowKey
    rw [lookup_updateRow_key setCols incoming r _ hts,
      lookup_updateRow_key setCols incoming r _ hloc]
  · intro c hc
    rw [lookup_updateRow]
    cases ho : r.lookup c <;> simp [updateVal, hc]

theorem upsertRow_frame (setCols : List String) (table : List Row)
    (incoming : Row) :
    ∀ r ∈ table, ∃ r2 ∈ upsertRow setCols table incoming,
      FrameOk setCols r r2 := by
  intro r hr
  unfold upsertRow
  by_cases hany : table.any (fun r0 => rowKey r0 = rowKey incoming)
  · simp only [hany, if_true]
    by_cases hkey : rowKey r = rowKey incoming
    · refine ⟨updateRow setCols incoming r, ?_, updateRow_frameOk _ _ _ hkey⟩
      have := List.mem_map_of_mem
        (fun r0 => if rowKey r0 = rowKey incoming
          then updateRow setCols incoming r0 else r0) hr
      simpa [hkey] using this
    · refine ⟨r, ?_, frameOk_refl _ _⟩
      have := List.mem_map_of_mem
        (fun r0 => if rowKey r0 = rowKey incoming
          then updateRow setCols incoming r0 else r0) hr
      simpa [hkey] using this
  · simp only [hany, if_false]
    exact ⟨r, List.mem_append_left _ hr, frameOk_refl _ _⟩

theorem foldl_upsert_frame (setCols : List String) (rows : List Row) :
    ∀ (table : List Row) (r : Row), r ∈ table →
      ∃ r2 ∈ rows.foldl (upsertRow setCols) table, FrameOk setCols r r2 := by
  induction rows with
  | nil => exact fun table r hr => ⟨r, hr, frameOk_refl _ _⟩
  | cons x xs ih =>
      intro table r hr
      obtain ⟨r1, hr1, hf1⟩ := upsertRow_frame setCols table x r hr
      obtain ⟨r2, hr2, hf2⟩ := ih (upsertRow setCols table x) r1 hr1
      exact ⟨r2, by simpa using hr2, frameOk_trans hf1 hf2⟩

/-- C9: when the bulk upsert of `insert_weather_data` hits existing rows,
every pre-existing row keeps its conflict key, its column structure, and
its value at every column that did not survive the schema intersection of
that call; only the surviving columns can change. -/
theorem insert_weather_upsert_frame_C9 (validColumns : List String)
    (table : List Row) (resolution location : String)
    (timestamps : List Int) (paramNames : List String)
    (paramValues : List PyParamValue) (ok : Bool) (table2 : List Row)
    (h : insertWeatherData validColumns table resolution location timestamps
      paramNames paramValues = some (ok, table2)) :
    ∀ r ∈ table, ∃ r2 ∈ table2,
      FrameOk (survivingNames paramNames validColumns) r r2 := by
  intro r hr
  unfold insertWeatherData at h
  cases hva : ((paramNames.enum.filter (fun p => p.2 ∈ validColumns)).map
      (·.1)).mapM (fun i => paramValues.get? i) with
  | none => rw [hva] at h; simp at h
  | some validArrays =>
      rw [hva] at h
      dsimp only at h
      by_cases hemp : (survivingNames paramNames validColumns).isEmpty = true
      · simp only [hemp, if_true] at h
        have htab : table = table2 := congrArg Prod.snd (Option.some.inj h)
        exact htab ▸ ⟨r, hr, frameOk_refl _ _⟩
      · simp only [hemp, if_false] at h
        cases hrows : timestamps.enum.mapM (fun p => buildRow resolution
            location (survivingNames paramNames validColumns) validArrays
            p.1 p.2) with
        | none => rw [hrows] at h; simp at h
        | some rows =>
            rw [hrows] at h
            dsimp only at h
            have htab : rows.foldl
                (upsertRow (survivingNames paramNames validColumns)) table =
                table2 := congrArg Prod.snd (Option.some.inj h)
            exact htab ▸ foldl_upsert_frame _ rows table r hr
/-- C1: the registered weather runner passes one positional argument to
the zero-parameter `weather` function, so every invocation of the pair
`(args, connection)` raises `TypeError` instead of returning a boolean
success flag. -/
theorem weather_runner_raises_C1 :
    weatherParamCount = 0 ∧ weatherRunnerArgCount = 1 ∧
    (∀ body : Unit → Bool, weatherRunnerOutcome body = .raisesTypeError) ∧
    (∀ (body : Unit → Bool) (b : Bool),
      weatherRunnerOutcome body ≠ .returns b) :=
  ⟨rfl, rfl, fun _ => rfl, fun _ _ h => nomatch h⟩

/-- C3: with one matched location for which `current` and `hourly` are
both requested, a null `current` block makes the loop `continue` past the
present `hourly` data and past `saved += 1`: no insert at all is issued
for the location and the overall store loop fails, where the claim
expects the hourly insert to happen and the ingest to succeed. -/
theorem weather_null_current_skips_location_C3 :
    (WeatherResponse.mk 48 11 Option.none
      (some ⟨1000, 1002, 1, [some [some 10, some 11]]⟩)
      Option.none).hourly.isSome = true ∧
    matchLocation [("loc", 48, 11)]
      (WeatherResponse.mk 48 11 Option.none
        (some ⟨1000, 1002, 1, [some [some 10, some 11]]⟩)
        Option.none) = some "loc" ∧
    weatherStoreLoop ["temperature_2m"] ["temperature_2m"] []
      [("loc", 48, 11)]
      [WeatherResponse.mk 48 11 Option.none
        (some ⟨1000, 1002, 1, [some [some 10, some 11]]⟩)
        Option.none] = ([], false) := by
  have hlat : isClose 48 48 = true := by norm_num [isClose, ratAbs]
  have hlon : isClose 11 11 = true := by norm_num [isClose, ratAbs]
  refine ⟨rfl, ?_, ?_⟩
  · simp [matchLocation, List.find?, hlat, hlon]
  · simp [weatherStoreLoop, processResponse, matchLocation, List.find?,
      hlat, hlon]

/-- C10: with the dry-run flag set and a cached HTML file present, the
kletterzentrum runner parses the cached HTML and returns `True` without
executing any INSERT on the passed connection, whatever the
configuration, transport and database would have done. -/
theorem kletter_dry_run_no_db_write_C10 :
    ∀ (cfg : JVal) (html : String) (fetch : Except FetchErr String)
      (parseDom : String → List Node) (now : Int) (insertFails : Bool),
      (kletterzentrum ⟨true⟩ cfg (some html) fetch parseDom now
        insertFails).outcome = .ok true ∧
      (kletterzentrum ⟨true⟩ cfg (some html) fetch parseDom now
        insertFails).dbWrites = [] :=
  fun _ _ _ _ _ _ => ⟨rfl, rfl⟩

/-- C8: a whitespace-only migration file executes no statement and gets
no tracking row (the state is untouched), and because only recorded ids
are skipped, a later run that finds content at the same file name applies
it. -/
theorem migrations_empty_file_skipped_C8 :
    (∀ (execFail : String → Bool) (st : DbState)
      (migration filepath name appliedAt : String),
      (pyStrip migration).isEmpty = true →
      applyMigration execFail st migration filepath name appliedAt =
        .ok st) ∧
    (∀ (execFail : String → Bool) (st : DbState)
      (filepath content appliedAt : String),
      filepath ∉ st.migrations.map (·.id) →
      (∀ stmt ∈ statementsOf content, execFail stmt = false) →
      applyMigrations execFail st [(filepath, content)] appliedAt =
        if (pyStrip content).isEmpty then .ok st
        else .ok ⟨st.migrations ++ [⟨filepath, pathStem filepath, appliedAt⟩],
          st.executed ++ statementsOf content⟩) := by
  constructor
  · intro execFail st migration filepath name appliedAt h
    unfold applyMigration
    simp [h]
  · intro execFail st filepath content appliedAt hnot hok
    have hnofail : (statementsOf content).any execFail = false :=
      List.any_eq_false.mpr (fun x hx => by simp [hok x hx])
    have happly : applyMigration execFail st content filepath
        (pathStem filepath) appliedAt =
        if (pyStrip content).isEmpty then .ok st
        else .ok ⟨st.migrations ++
            [⟨filepath, pathStem filepath, appliedAt⟩],
          st.executed ++ statementsOf content⟩ := by
      unfold applyMigration
      by_cases hempty : (pyStrip content).isEmpty = true
      · simp [hempty]
      · simp [hempty, hnofail]
    simp only [applyMigrations, sortByName, insertSortedByName,
      List.foldlM, hnot, if_false, happly]
    by_cases hempty : (pyStrip content).isEmpty = true
    · simp [hempty]
    · simp [hempty]

theorem findSome_none {α β : Type} (f : α → Option β) (l : List α)
    (h : ∀ x ∈ l, f x = Option.none) : l.findSome? f = Option.none := by
  induction l with
  | nil => rfl
  | cons a as ih =>
      rw [List.findSome?_cons, h a (by simp)]
      exact ih (fun x hx => h x (by simp [hx]))

theorem parseOverall_none (dom : List Node)
    (h : ∀ e ∈ docElements dom, tagOf e = "h2" →
      firstInt13 (pyGetTextStrip e).toList = Option.none) :
    parseOverall dom = Option.none := by
  unfold parseOverall
  by_cases hp : ((docElements dom).filter (fun e => tagOf e = "h2" ∧
      hasClass e "x-text-content-text-primary")).isEmpty
  · simp only [hp, if_true]
    apply findSome_none
    intro e he
    obtain ⟨hmem, htag⟩ := List.mem_filter.mp he
    exact h e hmem (by simpa using htag)
  · simp only [hp, if_false]
    apply findSome_none
    intro e he
    obtain ⟨hmem, htag⟩ := List.mem_filter.mp he
    have : tagOf e = "h2" := by
      have := of_decide_eq_true htag
      exact this.1
    exact h e hmem this

theorem sectionStep_skip (sb : Option Int × Option Int) (c : Node)
    (hc : (descendantsOf c).find? isBarPercDiv = Option.none) :
    sectionStep sb c = sb := by
  unfold sectionStep
  rw [hc]
  cases (descendantsOf c).find?
    (fun e => tagOf e = "span" ∧ hasClass e "label") <;> rfl

theorem foldl_sectionStep_skip (containers : List Node)
    (h : ∀ c ∈ containers,
      (descendantsOf c).find? isBarPercDiv = Option.none) :
    ∀ sb, containers.foldl sectionStep sb = sb := by
  induction containers with
  | nil => intro sb; rfl
  | cons c cs ih =>
      intro sb
      rw [List.foldl_cons, sectionStep_skip sb c (h c (by simp))]
      exact ih (fun x hx => h x (by simp [hx])) sb

theorem splitAtFirst_none (p : Node → Bool) (l : List Node)
    (h : ∀ x ∈ l, p x = false) : splitAtFirst p l = Option.none := by
  induction l with
  | nil => rfl
  | cons a as ih =>
      unfold splitAtFirst
      rw [h a (by simp)]
      simp only [Bool.false_eq_true, if_false]
      exact ih (fun x hx => h x (by simp [hx]))

/-- C7: an HTML input with none of the recognized markers (no h2 text
containing an integer, no bar-container holding a
`div.bar[data-percentage]`, no inline `height: N%` occurrence, no
h2/h3 heading containing `offene sektoren`) parses to a reading with all
five fields null; the parse itself is a total function, so it raises on
no input. -/
theorem parse_no_markers_all_null_C7 (input : HtmlInput)
    (hOverall : ∀ e ∈ docElements input.dom, tagOf e = "h2" →
      firstInt13 (pyGetTextStrip e).toList = Option.none)
    (hBars : ∀ e ∈ docElements input.dom, hasClass e "bar-container" = true →
      (descendantsOf e).find? isBarPercDiv = Option.none)
    (hCss : cssHeights input.raw = [])
    (hHeadings : ∀ e ∈ docElements input.dom,
      (tagOf e = "h3" ∨ tagOf e = "h2") →
      containsSub (pyLower (pyGetTextStrip e)) "offene sektoren" = false) :
    parseHtml input = ⟨Option.none, Option.none, Option.none,
      Option.none, Option.none⟩ := by
  unfold parseHtml
  have ho : parseOverall input.dom = Option.none :=
    parseOverall_none input.dom hOverall
  have hs : parseSections input.dom = (Option.none, Option.none) := by
    unfold parseSections
    apply foldl_sectionStep_skip
    intro c hcm
    obtain ⟨hmem, hcl⟩ := List.mem_filter.mp hcm
    exact hBars c hmem hcl
  have hcss : parseCss input.raw (Option.none, Option.none) =
      (Option.none, Option.none) := by
    unfold parseCss
    simp [hCss]
  have hsec : parseOpenSectors input.dom =
      (Option.none, Option.none) := by
    unfold parseOpenSectors
    rw [splitAtFirst_none]
    intro e he
    have hhd := hHeadings e he
    by_cases ht3 : tagOf e = "h3"
    · simp [ht3, hhd (Or.inl ht3)]
    · by_cases ht2 : tagOf e = "h2"
      · simp [ht2, hhd (Or.inr ht2)]
      · simp [ht3, ht2]
  simp [ho, hs, hcss, hsec]

/-- Witness for C7: the empty document. -/
theorem parse_no_markers_all_null_C7_witness :
    parseHtml ⟨"", []⟩ = ⟨Option.none, Option.none, Option.none,
      Option.none, Option.none⟩ :=
  parse_no_markers_all_null_C7 ⟨"", []⟩
    (fun e he => absurd he (List.not_mem_nil e))
    (fun e he => absurd he (List.not_mem_nil e))
    rfl
    (fun e he => absurd he (List.not_mem_nil e))

/-- Witness for C1: the outcome at a concrete body. -/
theorem weather_runner_raises_C1_witness :
    weatherRunnerOutcome (fun _ => true) = .raisesTypeError :=
  weather_runner_raises_C1.2.2.1 (fun _ => true)

/-- Witness for C10: a concrete dry-run invocation. -/
theorem kletter_dry_run_no_db_write_C10_witness :
    (kletterzentrum ⟨true⟩ .null (some "<html></html>") (.ok "")
      (fun _ => []) 0 false).outcome = .ok true ∧
    (kletterzentrum ⟨true⟩ .null (some "<html></html>") (.ok "")
      (fun _ => []) 0 false).dbWrites = [] :=
  kletter_dry_run_no_db_write_C10 .null "<html></html>" (.ok "")
    (fun _ => []) 0 false

/-- Witness for C8: the whitespace-only file of the test suite, then a
run finding content at the same name. -/
theorem migrations_empty_file_skipped_C8_witness :
    applyMigration (fun _ => false) ⟨[], []⟩ "  \n" "0000_empty.sql"
      "0000_empty" "t0" = .ok ⟨[], []⟩ ∧
    applyMigrations (fun _ => false) ⟨[], []⟩
      [("0000_empty.sql", "CREATE TABLE t (x INTEGER);")] "t1" =
      .ok ⟨[⟨"0000_empty.sql", "0000_empty", "t1"⟩],
        ["CREATE TABLE t (x INTEGER)"]⟩ :=
  ⟨migrations_empty_file_skipped_C8.1 (fun _ => false) ⟨[], []⟩ "  \n"
      "0000_empty.sql" "0000_empty" "t0" (by decide),
   migrations_empty_file_skipped_C8.2 (fun _ => false) ⟨[], []⟩
      "0000_empty.sql" "CREATE TABLE t (x INTEGER);" "t1"
      (List.not_mem_nil _) (fun _ _ => rfl)⟩

/-- Witness for C9: a conflicting re-insert updates `temperature_2m` and
leaves the `humidity` column and the key columns untouched. -/
theorem insert_weather_upsert_frame_C9_witness :
    ∃ r2 ∈ [[("timestamp", SqlVal.int 1), ("location", SqlVal.text "loc"),
        ("temperature_2m", SqlVal.real 20), ("humidity", SqlVal.real 50)]],
      FrameOk (survivingNames ["temperature_2m"] ["temperature_2m"])
        [("timestamp", SqlVal.int 1), ("location", SqlVal.text "loc"),
         ("temperature_2m", SqlVal.real 10), ("humidity", SqlVal.real 50)]
        r2 :=
  insert_weather_upsert_frame_C9 ["temperature_2m"]
    [[("timestamp", SqlVal.int 1), ("location", SqlVal.text "loc"),
      ("temperature_2m", SqlVal.real 10), ("humidity", SqlVal.real 50)]]
    "hourly" "loc" [1] ["temperature_2m"] [.array [some 20]] true
    [[("timestamp", SqlVal.int 1), ("location", SqlVal.text "loc"),
      ("temperature_2m", SqlVal.real 20), ("humidity", SqlVal.real 50)]]
    rfl
    [("timestamp", SqlVal.int 1), ("location", SqlVal.text "loc"),
     ("temperature_2m", SqlVal.real 10), ("humidity", SqlVal.real 50)]
    (List.mem_singleton.mpr rfl)

end KivollWorker
